import Mathlib

/-!
Shallow embedding of `atef/procedure.py` (active-checkout procedure runner):
the edit-step data model, the prepared (runtime) twin tree, preparation
(`from_origin`), execution (`run` / `_run`) and the result-aggregation logic,
together with theorems settling the specification claims about them.

External collaborators (hardware signal resolution and writes, passive-file
loading/running, comparison evaluation, the local RunEngine) are modelled as
an explicit environment of capabilities; the sequence of external calls a run
performs is made observable as a trace of events.
-/

/-- Severity levels, ordered `success < warning < error < internal_error`.
Modelled from the spec (the `Severity` enum lives in `atef/enums.py`, which is
not under `src/`): an ordered four-valued enum. -/
inductive Severity where
  | success
  | warning
  | error
  | internal_error
deriving DecidableEq, Repr, Fintype

/-- Numeric value of a severity (IntEnum values 0..3). -/
def Severity.toNat : Severity → Nat
  | .success => 0
  | .warning => 1
  | .error => 2
  | .internal_error => 3

instance : LT Severity := ⟨fun a b => a.toNat < b.toNat⟩

instance : LE Severity := ⟨fun a b => a.toNat ≤ b.toNat⟩

instance : DecidableRel (fun (a b : Severity) => a < b) :=
  fun a b => Nat.decLt a.toNat b.toNat

instance : DecidableRel (fun (a b : Severity) => a ≤ b) :=
  fun a b => Nat.decLe a.toNat b.toNat

/-- Python `max` on two severities (returns the later one only if strictly
larger, like `max(a, b)` on an IntEnum). -/
def Severity.max (a b : Severity) : Severity :=
  if a.toNat < b.toNat then b else a

/-- A severity-leveled outcome with a reason string
(`atef/result.py::Result`, modelled from the spec: severity plus an optional
human-readable reason; `Result()` defaults to `success` with no reason). -/
structure Result where
  severity : Severity := Severity.success
  reason : Option String := none
deriving DecidableEq, Repr

/-- Modelled from the spec: the "incomplete" sentinel Result
(`atef/result.py::incomplete_result`, not under `src/`) representing
"not yet evaluated"; its severity is distinct from `success` (the spec calls
it undefined/unknown; any non-success level observes the claims identically,
`internal_error` is used here). -/
def incomplete_result : Result :=
  { severity := Severity.internal_error, reason := some "Step not completed" }

/-- Result-combination modes (`atef/enums.py::GroupResultMode`); only the
`all_` ("all must succeed") mode is used by the procedure core. -/
inductive GroupResultMode where
  | all_
deriving DecidableEq, Repr

/-- Modelled from the spec: `atef/result.py::_summarize_result_severity`
(not under `src/`): under `all_` mode the aggregate severity is the maximum
of the input severities, and an empty input yields `success`. -/
def _summarize_result_severity (mode : GroupResultMode) (results : List Result) : Severity :=
  match mode with
  | GroupResultMode.all_ =>
      (results.map Result.severity).foldl Severity.max Severity.success

/-- Python exceptions that appear in the embedded code paths. -/
inductive Exn where
  | notImplementedError (msg : String)
  | valueError (msg : String)
  | attributeError (msg : String)
  | oserror (msg : String)
  | runtimeError (msg : String)
deriving DecidableEq, Repr

/-- `str(ex)`: the message text of an exception. -/
def Exn.str : Exn → String
  | .notImplementedError m => m
  | .valueError m => m
  | .attributeError m => m
  | .oserror m => m
  | .runtimeError m => m

/-- Rendering of an `Optional[str]` under an f-string (`None` for absent). -/
def pyOptStr : Option String → String
  | none => "None"
  | some s => s

/-- Python `repr` of a string (single quotes; escaping is not modelled). -/
def pyRepr (s : String) : String := "\x27" ++ s ++ "\x27"

/-- Python truthiness of an `Optional[str]` (`None` and `""` are falsy). -/
def truthy : Option String → Bool
  | none => false
  | some s => !s.isEmpty

/-- Python f-string rendering of a list of optional names, e.g.
`['a', 'b']` / `[None]`. -/
def pyListRepr (names : List (Option String)) : String :=
  "[" ++ String.intercalate ", "
    (names.map (fun n =>
      match n with
      | none => "None"
      | some s => pyRepr s)) ++ "]"

/-! ## Edit (description) data model -/

/-- A comparison to apply to a value (`atef/check.py::Comparison` is external
to the embedded core; only its `name` is observed by `procedure.py`). -/
structure Comparison where
  name : Option String := none
deriving DecidableEq, Repr

/-- `Target`: a destination for a value, either an ophyd device+attr pair or
an EPICS PV. -/
structure Target where
  name : Option String := none
  device : Option String := none
  attr : Option String := none
  pv : Option String := none
deriving DecidableEq, Repr

/-- `ValueToTarget`: a target plus the value to set and optional
`set()` parameters. -/
structure ValueToTarget extends Target where
  value : Option Int := none
  timeout : Option Nat := none
  settle_time : Option Nat := none
deriving DecidableEq, Repr

/-- `ComparisonToTarget`: a target plus the comparison to apply to it. -/
structure ComparisonToTarget extends Target where
  comparison : Option Comparison := none
deriving DecidableEq, Repr

/-- Where a plan is submitted (`atef/enums.py::PlanDestination`); only the
local RunEngine is actually supported by the core. -/
inductive PlanDestination where
  | local_
  | qserver
deriving DecidableEq, Repr

/-- `PlanOptions`: options for a bluesky plan scan (args/kwargs are opaque to
the embedded core). -/
structure PlanOptions where
  name : String
  plan : String
  args : List Int := []
  kwargs : List (String × Int) := []
deriving DecidableEq, Repr

/-- Fields shared by every `ProcedureStep` (edit node). The `parent`
back-reference is a non-owning upward pointer and is not part of the value
model. -/
structure StepFields where
  name : Option String := none
  description : Option String := none
  verify_required : Bool := true
  step_success_required : Bool := true
deriving DecidableEq, Repr

/-- The `AnyProcedure` closed union of edit-step variants
(`ProcedureGroup`, `DescriptionStep`, `PassiveStep`, `SetValueStep`,
`PlanStep`), as a tagged union over the `isinstance` dispatch family. -/
inductive AnyProcedure where
  | group (base : StepFields) (steps : List AnyProcedure)
  | descriptionStep (base : StepFields)
  | passiveStep (base : StepFields) (filepath : String)
  | setValueStep (base : StepFields) (actions : List ValueToTarget)
      (success_criteria : List ComparisonToTarget)
      (halt_on_fail : Bool) (require_action_success : Bool)
  | planStep (base : StepFields) (plans : List PlanOptions)
      (destination : PlanDestination) (halt_on_fail : Bool)
      (require_plan_success : Bool)

/-- The shared `ProcedureStep` fields of an edit node. -/
def AnyProcedure.base : AnyProcedure → StepFields
  | .group b _ => b
  | .descriptionStep b => b
  | .passiveStep b _ => b
  | .setValueStep b _ _ _ _ => b
  | .planStep b _ _ _ _ => b

/-- `step.name`. -/
def AnyProcedure.name (s : AnyProcedure) : Option String := s.base.name

/-- `step.description`. -/
def AnyProcedure.description (s : AnyProcedure) : Option String := s.base.description

/-- `step.verify_required`. -/
def AnyProcedure.verify_required (s : AnyProcedure) : Bool := s.base.verify_required

/-- `step.step_success_required`. -/
def AnyProcedure.step_success_required (s : AnyProcedure) : Bool :=
  s.base.step_success_required

/-! ## External collaborators (environment of capabilities) -/

/-- A resolved hardware signal handle. Its behavior under `set()` + wait
(the write capability of the spec, which may raise on transport failure) is
carried on the handle, since a given handle behaves deterministically within
one run. -/
structure Signal where
  pvname : String := ""
  set_outcome : Except Exn Unit := Except.ok ()

/-- Opaque handle for a prepared passive checkout file
(`atef/config.py::PreparedFile`, external to the embedded core). -/
structure PreparedFile where
  id : String := ""

/-- Modelled from the spec: `atef/config.py::PreparedSignalComparison`
(not under `src/`), the prepared form of a comparison bound to a live signal.
The core observes its `name`, its stored `result`, and its `compare()`
method, which evaluates the comparison and stores a severity-bearing result;
the value `compare()` would store is carried as `compare_outcome`. -/
structure PreparedSignalComparison where
  name : Option String := none
  result : Result := incomplete_result
  compare_outcome : Result := {}

/-- `atef/exceptions.py::PreparedComparisonException`: an exception-carrying
record for a comparison that failed to be prepared (captured, not raised). -/
structure PreparedComparisonException where
  exception : Exn
  identifier : String := ""
  message : String := ""
  comparison : Option Comparison := none
  name : Option String := none

/-- The environment of external capabilities consumed by the core:
happi device lookup + signal cache (used by `Target.to_signal`), passive
checkout loading/preparation and running, `PreparedSignalComparison`
construction, and the local RunEngine. -/
structure Env where
  /-- `util.get_happi_device_by_name` + `getattr(device, attr)`;
  may raise. -/
  happi_lookup : String → String → Except Exn Signal
  /-- `signal_cache[pv]`; may raise. -/
  signal_cache : String → Except Exn Signal
  /-- `ConfigurationFile.from_filename` + `PreparedFile.from_config`
  for a passive checkout filepath; may raise (an `OSError` is caught by
  `PreparedPassiveStep.from_origin`). -/
  load_passive : String → Except Exn PreparedFile
  /-- `PreparedSignalComparison.from_signal(signal, comparison)`;
  may raise. -/
  from_signal : Option Signal → Option Comparison → Except Exn PreparedSignalComparison
  /-- `run_passive_step(prepared_file)`: run the nested checkout and
  obtain its Result; may raise. -/
  run_passive : PreparedFile → Except Exn Result
  /-- `plan_utils.run_in_local_RE(item)`: execute a plan item on the local
  RunEngine, returning its uuid. -/
  run_in_local_RE : String → String

/-- `Target.to_signal`: resolve this target to a signal, preferring the
device+attr happi lookup and falling back to the raw PV; every failure is
caught and surfaces as `none` (resolution is silent by design). -/
def Target.to_signal (env : Env) (t : Target) : Option Signal :=
  if truthy t.device && truthy t.attr then
    match env.happi_lookup (pyOptStr t.device) (pyOptStr t.attr) with
    | Except.ok s => some s
    | Except.error _ => none
  else if truthy t.pv then
    match env.signal_cache (pyOptStr t.pv) with
    | Except.ok s => some s
    | Except.error _ => none
  else
    none

/-! ## Prepared (runtime) data model -/

/-- Observable external calls made while running a prepared tree. -/
inductive Event where
  | set (name : Option String)
  | compare (name : Option String)
  | runPassive (id : String)
  | runLocalRE (plan : String)
deriving DecidableEq, Repr

/-- Whether an event is the execution of a success-criteria comparison. -/
def Event.isCompare : Event → Bool
  | .compare _ => true
  | _ => false

/-- `PreparedValueToSignal`: a value bound to a resolved signal, with the
original `ValueToTarget` and the stored result of the set action. -/
structure PreparedValueToSignal where
  name : Option String := none
  signal : Signal
  value : Option Int := none
  origin : ValueToTarget
  result : Result := incomplete_result

/-- `PreparedValueToSignal.run`: set the stored value to the signal (with the
origin timeout / settle time) and record a Result; a write exception is
caught and reported as `error` with the exception as reason — never raised. -/
def PreparedValueToSignal.run (p : PreparedValueToSignal) :
    Result × PreparedValueToSignal × List Event :=
  match p.signal.set_outcome with
  | Except.error ex =>
      let r : Result := { severity := Severity.error, reason := some ex.str }
      (r, { p with result := r }, [Event.set p.name])
  | Except.ok _ =>
      let r : Result := {}
      (r, { p with result := r }, [Event.set p.name])

/-- `PreparedValueToSignal.from_origin`: resolve the target to a signal,
raising `ValueError` if no valid signal can be produced. -/
def PreparedValueToSignal.from_origin (env : Env) (origin : ValueToTarget) :
    Except Exn PreparedValueToSignal :=
  match Target.to_signal env origin.toTarget with
  | none =>
      Except.error (Exn.valueError
        ("Target specification invalid: " ++ pyOptStr origin.name))
  | some s =>
      Except.ok
        { name := origin.name
          signal := s
          value := origin.value
          origin := origin
          result := incomplete_result }

/-- `PreparedSignalComparison.compare`: evaluate the comparison and store its
severity-bearing result. -/
def PreparedSignalComparison.compare (c : PreparedSignalComparison) :
    PreparedSignalComparison × List Event :=
  ({ c with result := c.compare_outcome }, [Event.compare c.name])

/-- The fields shared by every `PreparedProcedureStep`: the originating edit
node, and the three stored sub-results (`combined_result`, `verify_result`,
`step_result`, all defaulting to the incomplete sentinel). The `parent`
back-reference is non-owning and not part of the value model. -/
structure PreparedStepBase where
  name : Option String := none
  origin : AnyProcedure
  combined_result : Result := incomplete_result
  verify_result : Result := incomplete_result
  step_result : Result := incomplete_result

/-- `PreparedProcedureStep.result` (the property, lines 429-460): combines
`verify_result` and `step_result` according to the origin's
`verify_required` / `step_success_required` flags, building the labelled
reason string; with neither flag set it auto-succeeds. The computed Result is
also stored into `combined_result` (the property caches as it reads). -/
def PreparedStepBase.result (b : PreparedStepBase) : Result × PreparedStepBase :=
  let step1 : List Result × String :=
    if b.origin.verify_required then
      ([b.verify_result],
        if b.verify_result.severity ≠ Severity.success then
          "Not Verified (" ++ pyOptStr b.verify_result.reason ++ ")"
        else
          "Verified (" ++ pyOptStr b.verify_result.reason ++ ")")
    else ([], "")
  let step2 : List Result × String :=
    if b.origin.step_success_required then
      (step1.1 ++ [b.step_result],
        if b.step_result.severity ≠ Severity.success then
          step1.2 ++ ", Not Successful (" ++ pyOptStr b.step_result.reason ++ ")"
        else step1.2)
    else step1
  if step2.1.isEmpty then
    let r : Result := {}
    (r, { b with combined_result := r })
  else
    let r : Result :=
      { severity := _summarize_result_severity GroupResultMode.all_ step2.1
        reason := some step2.2 }
    (r, { b with combined_result := r })

/-- `PreparedProcedureStep.run` (lines 469-482) around an already-determined
`_run` outcome: if `_run` raised, synthesize an `internal_error` Result from
the exception message; store the result into `step_result`; return the
combined `result` property (and its state update). `run` itself never
raises. -/
def PreparedStepBase.runWith (b : PreparedStepBase) (outcome : Except Exn Result) :
    Result × PreparedStepBase :=
  let result : Result :=
    match outcome with
    | Except.ok r => r
    | Except.error ex =>
        { severity := Severity.internal_error, reason := some ex.str }
  PreparedStepBase.result { b with step_result := result }

/-- `FailedStep`: the sentinel runtime node for a step whose preparation
raised; carries the originating edit node, the pre-set `combined_result`,
and the causing exception. -/
structure FailedStep where
  origin : AnyProcedure
  combined_result : Result
  verify_result : Result := incomplete_result
  step_result : Result := incomplete_result
  exception : Option Exn := none

/-- `FailedStep.result`: always the stored `combined_result`, unchanged. -/
def FailedStep.result (f : FailedStep) : Result := f.combined_result

/-- The variant-specific fields of a `PreparedSetValueStep`: prepared actions
and criteria plus the collected per-item preparation failures. -/
structure PreparedSetValueStepData where
  prepared_actions : List PreparedValueToSignal := []
  prepare_action_failures : List ValueToTarget := []
  prepared_criteria : List PreparedSignalComparison := []
  prepare_criteria_failures : List PreparedComparisonException := []

/-- The `AnyPreparedProcedure` closed union of prepared-step variants
(`PreparedProcedureGroup`, `PreparedDescriptionStep`, `PreparedPassiveStep`,
`PreparedSetValueStep`), each holding the shared `PreparedStepBase`
fields. -/
inductive AnyPreparedProcedure where
  | group (base : PreparedStepBase) (steps : List AnyPreparedProcedure)
      (prepare_failures : List FailedStep)
  | descriptionStep (base : PreparedStepBase)
  | passiveStep (base : PreparedStepBase) (prepared_passive_file : Option PreparedFile)
  | setValueStep (base : PreparedStepBase) (data : PreparedSetValueStepData)

/-- The shared `PreparedProcedureStep` fields of a prepared node. -/
def AnyPreparedProcedure.base : AnyPreparedProcedure → PreparedStepBase
  | .group b _ _ => b
  | .descriptionStep b => b
  | .passiveStep b _ => b
  | .setValueStep b _ => b

mutual

/-- The `result` property of a prepared node. For non-group variants this is
the base `PreparedProcedureStep.result` property. For a group
(`PreparedProcedureGroup.result`, lines 597-615) it first re-pulls each
child's current `result` (updating the children's caches), recomputes the
group outcome (forced `error` whenever `prepare_failures` is non-empty,
otherwise the `all_` combination of the child results), stores it into the
group's `step_result`, then defers to the base property. -/
def AnyPreparedProcedure.result :
    AnyPreparedProcedure → Result × AnyPreparedProcedure
  | AnyPreparedProcedure.group base steps fails =>
      let rs := AnyPreparedProcedure.resultList steps
      let res : Result :=
        if fails.isEmpty then
          { severity := _summarize_result_severity GroupResultMode.all_ rs.1 }
        else
          { severity := Severity.error
            reason := some "At least one step failed to initialize" }
      let rb := PreparedStepBase.result { base with step_result := res }
      (rb.1, AnyPreparedProcedure.group rb.2 rs.2 fails)
  | AnyPreparedProcedure.descriptionStep base =>
      let rb := PreparedStepBase.result base
      (rb.1, AnyPreparedProcedure.descriptionStep rb.2)
  | AnyPreparedProcedure.passiveStep base f =>
      let rb := PreparedStepBase.result base
      (rb.1, AnyPreparedProcedure.passiveStep rb.2 f)
  | AnyPreparedProcedure.setValueStep base d =>
      let rb := PreparedStepBase.result base
      (rb.1, AnyPreparedProcedure.setValueStep rb.2 d)

/-- `[step.result for step in self.steps]`: current results of a list of
prepared children, with their state updates. -/
def AnyPreparedProcedure.resultList :
    List AnyPreparedProcedure → List Result × List AnyPreparedProcedure
  | [] => ([], [])
  | s :: rest =>
      let r := AnyPreparedProcedure.result s
      let rs := AnyPreparedProcedure.resultList rest
      (r.1 :: rs.1, r.2 :: rs.2)

end

/-- The action loop of `PreparedSetValueStep._run` (lines 725-732): run each
prepared action in order; if `halt_on_fail` and the action's severity exceeds
success, stop there (returning the halting action's name) and leave the
remaining actions untouched. -/
def runActionsLoop (halt_on_fail : Bool) :
    List PreparedValueToSignal →
      List PreparedValueToSignal × Option (Option String) × List Event
  | [] => ([], none, [])
  | a :: rest =>
      let r := PreparedValueToSignal.run a
      if halt_on_fail && decide (Severity.success < r.1.severity) then
        (r.2.1 :: rest, some r.2.1.name, r.2.2)
      else
        let rs := runActionsLoop halt_on_fail rest
        (r.2.1 :: rs.1, rs.2.1, r.2.2 ++ rs.2.2)

/-- The criteria loop of `PreparedSetValueStep._run` (lines 733-734): run
`compare()` on every prepared criterion, in order. -/
def compareAll : List PreparedSignalComparison →
    List PreparedSignalComparison × List Event
  | [] => ([], [])
  | c :: rest =>
      let r := PreparedSignalComparison.compare c
      let rs := compareAll rest
      (r.1 :: rs.1, r.2 ++ rs.2)

/-- `PreparedSetValueStep._run` (lines 714-760): run the actions (halting on
the first failing one when `origin.halt_on_fail`, in which case `step_result`
is set to an `error` Result and returned immediately, skipping the criteria);
otherwise run every success criterion, then fail on any recorded
action-preparation failures (when `origin.require_action_success`) or
criteria-preparation failures, and finally return the `all_` combination of
the criteria results and (when required) the action results. Reading the
`halt_on_fail` / `require_action_success` attributes of a non-SetValueStep
origin raises `AttributeError`. -/
def PreparedSetValueStep_run (b : PreparedStepBase) (d : PreparedSetValueStepData) :
    Except Exn (Result × PreparedStepBase × PreparedSetValueStepData × List Event) :=
  match b.origin with
  | AnyProcedure.setValueStep _ _ _ halt_on_fail require_action_success =>
      let acts := runActionsLoop halt_on_fail d.prepared_actions
      match acts.2.1 with
      | some haltedName =>
          let r : Result :=
            { severity := Severity.error
              reason := some ("action failed (" ++ pyOptStr haltedName ++ "), step halted") }
          Except.ok (r, { b with step_result := r },
            { d with prepared_actions := acts.1 }, acts.2.2)
      | none =>
          let crits := compareAll d.prepared_criteria
          let events := acts.2.2 ++ crits.2
          let d1 : PreparedSetValueStepData :=
            { d with prepared_actions := acts.1, prepared_criteria := crits.1 }
          if require_action_success && !d.prepare_action_failures.isEmpty then
            Except.ok
              ({ severity := Severity.error
                 reason := some ("One or more actions failed to initialize: " ++
                   pyListRepr (d.prepare_action_failures.map (fun a => a.name))) },
               b, d1, events)
          else
            let action_results : List Result :=
              if require_action_success then
                acts.1.map (fun a => a.result)
              else []
            let criteria_results : List Result :=
              crits.1.map (fun c => c.result)
            if !d.prepare_criteria_failures.isEmpty then
              Except.ok
                ({ severity := Severity.error
                   reason := some ("One or more success criteria failed to initialize: " ++
                     pyListRepr (d.prepare_criteria_failures.map (fun c => c.name))) },
                 b, d1, events)
            else
              Except.ok
                ({ severity := _summarize_result_severity GroupResultMode.all_
                     (criteria_results ++ action_results) },
                 b, d1, events)
  | _ =>
      Except.error (Exn.attributeError "origin has no attribute halt_on_fail")

mutual

/-- `run()` on a prepared node. Non-group variants use the base
`PreparedProcedureStep.run` wrapper (never raises; a raising `_run` becomes
an `internal_error` Result) around their variant-specific `_run`:
`PreparedDescriptionStep._run` always returns a success Result;
`PreparedPassiveStep._run` runs the prepared passive file (or an `error`
Result when there is none); `PreparedSetValueStep._run` is as above.
A group (`PreparedProcedureGroup.run`, lines 579-595) runs its children
sequentially, forces an `error` step result whenever `prepare_failures` is
non-empty (otherwise the `all_` combination of the child run results), and
returns its `result` property. -/
def AnyPreparedProcedure.run (env : Env) :
    AnyPreparedProcedure → Result × AnyPreparedProcedure × List Event
  | AnyPreparedProcedure.group base steps fails =>
      let rs := AnyPreparedProcedure.runList env steps
      let res : Result :=
        if fails.isEmpty then
          { severity := _summarize_result_severity GroupResultMode.all_ rs.1 }
        else
          { severity := Severity.error
            reason := some "At least one step failed to initialize" }
      let g := AnyPreparedProcedure.result
        (AnyPreparedProcedure.group { base with step_result := res } rs.2.1 fails)
      (g.1, g.2, rs.2.2)
  | AnyPreparedProcedure.descriptionStep base =>
      let rb := PreparedStepBase.runWith base (Except.ok {})
      (rb.1, AnyPreparedProcedure.descriptionStep rb.2, [])
  | AnyPreparedProcedure.passiveStep base f =>
      match f with
      | none =>
          let rb := PreparedStepBase.runWith base
            (Except.ok { severity := Severity.error
                         reason := some "No passive checkout to run" })
          (rb.1, AnyPreparedProcedure.passiveStep rb.2 f, [])
      | some pf =>
          let rb := PreparedStepBase.runWith base (env.run_passive pf)
          (rb.1, AnyPreparedProcedure.passiveStep rb.2 f, [Event.runPassive pf.id])
  | AnyPreparedProcedure.setValueStep base d =>
      match PreparedSetValueStep_run base d with
      | Except.ok out =>
          let rb := PreparedStepBase.runWith out.2.1 (Except.ok out.1)
          (rb.1, AnyPreparedProcedure.setValueStep rb.2 out.2.2.1, out.2.2.2)
      | Except.error ex =>
          let rb := PreparedStepBase.runWith base (Except.error ex)
          (rb.1, AnyPreparedProcedure.setValueStep rb.2 d, [])

/-- Run a list of prepared children sequentially, collecting their returned
Results, updated states, and the concatenated event trace. -/
def AnyPreparedProcedure.runList (env : Env) :
    List AnyPreparedProcedure →
      List Result × List AnyPreparedProcedure × List Event
  | [] => ([], [], [])
  | s :: rest =>
      let r := AnyPreparedProcedure.run env s
      let rs := AnyPreparedProcedure.runList env rest
      (r.1 :: rs.1, r.2.1 :: rs.2.1, r.2.2 ++ rs.2.2)

end

/-! ## Preparation (`from_origin` family) -/

/-- The outcome of `create_prepared_comparison` when it returns: either the
prepared comparison or a captured `PreparedComparisonException`. -/
inductive PreparedCompOutcome where
  | ok (c : PreparedSignalComparison)
  | exn (e : PreparedComparisonException)

/-- `create_prepared_comparison` (lines 1036-1072) on a comparison bound to a
live signal target: resolve the target to a signal and build a
`PreparedSignalComparison`; a construction failure is captured as a
`PreparedComparisonException` rather than raised — except that building the
exception record reads `comp.name`, which itself raises `AttributeError`
when the check has no comparison attached. -/
def create_prepared_comparison (env : Env) (check : ComparisonToTarget) :
    Except Exn PreparedCompOutcome :=
  let signal := Target.to_signal env check.toTarget
  let comp := check.comparison
  match env.from_signal signal comp with
  | Except.ok prepared => Except.ok (PreparedCompOutcome.ok prepared)
  | Except.error ex =>
      match comp with
      | none =>
          Except.error (Exn.attributeError
            "NoneType object has no attribute name")
      | some c =>
          Except.ok (PreparedCompOutcome.exn
            { exception := ex
              identifier := (signal.map Signal.pvname).getD ""
              message := "Failed to initialize comparison"
              comparison := comp
              name := c.name })

/-- The action loop of `PreparedSetValueStep.from_origin` (lines 791-798):
prepare each `ValueToTarget`; any exception routes the original action into
`prepare_action_failures`, in order. -/
def prepActions (env : Env) :
    List ValueToTarget → List PreparedValueToSignal × List ValueToTarget
  | [] => ([], [])
  | a :: rest =>
      let rs := prepActions env rest
      match PreparedValueToSignal.from_origin env a with
      | Except.ok p => (p :: rs.1, rs.2)
      | Except.error _ => (rs.1, a :: rs.2)

/-- The criteria loop of `PreparedSetValueStep.from_origin` (lines 800-805):
`create_prepared_comparison` each criterion, routing captured exceptions into
`prepare_criteria_failures`; an exception raised by
`create_prepared_comparison` itself propagates. -/
def prepCriteria (env : Env) :
    List ComparisonToTarget →
      Except Exn (List PreparedSignalComparison × List PreparedComparisonException)
  | [] => Except.ok ([], [])
  | c :: rest =>
      match create_prepared_comparison env c with
      | Except.error ex => Except.error ex
      | Except.ok out =>
          match prepCriteria env rest with
          | Except.error ex => Except.error ex
          | Except.ok rs =>
              match out with
              | PreparedCompOutcome.ok p => Except.ok (p :: rs.1, rs.2)
              | PreparedCompOutcome.exn e => Except.ok (rs.1, e :: rs.2)

/-- A fresh `PreparedStepBase` as built by the variant constructors (name as
passed, stored results defaulting to the incomplete sentinel). -/
def mkPreparedBase (name : Option String) (origin : AnyProcedure) : PreparedStepBase :=
  { name := name, origin := origin }

/-- `PreparedDescriptionStep.from_origin` (lines 623-643). -/
def PreparedDescriptionStep.from_origin (step : AnyProcedure) (base : StepFields) :
    AnyPreparedProcedure :=
  AnyPreparedProcedure.descriptionStep (mkPreparedBase base.name step)

/-- `PreparedPassiveStep.from_origin` (lines 657-690): load and prepare the
passive checkout file; an `OSError` is caught (leaving no prepared file),
any other exception propagates. -/
def PreparedPassiveStep.from_origin (env : Env) (step : AnyProcedure)
    (base : StepFields) (filepath : String) : Except Exn AnyPreparedProcedure :=
  match env.load_passive filepath with
  | Except.ok f =>
      Except.ok (AnyPreparedProcedure.passiveStep (mkPreparedBase base.name step) (some f))
  | Except.error (Exn.oserror _) =>
      Except.ok (AnyPreparedProcedure.passiveStep (mkPreparedBase base.name step) none)
  | Except.error ex => Except.error ex

/-- `PreparedSetValueStep.from_origin` (lines 762-807): prepare the actions
(collecting per-action failures) and the success criteria (collecting
captured comparison exceptions; an exception raised while creating a
prepared comparison propagates). -/
def PreparedSetValueStep.from_origin (env : Env) (step : AnyProcedure)
    (base : StepFields) (actions : List ValueToTarget)
    (success_criteria : List ComparisonToTarget) : Except Exn AnyPreparedProcedure :=
  let acts := prepActions env actions
  match prepCriteria env success_criteria with
  | Except.error ex => Except.error ex
  | Except.ok crits =>
      Except.ok (AnyPreparedProcedure.setValueStep (mkPreparedBase base.name step)
        { prepared_actions := acts.1
          prepare_action_failures := acts.2
          prepared_criteria := crits.1
          prepare_criteria_failures := crits.2 })

/-- `PreparedProcedureStep.from_origin`'s return: a prepared node, or the
`FailedStep` sentinel when preparation raised. -/
inductive PreparedOrFailed where
  | prepared (p : AnyPreparedProcedure)
  | failed (f : FailedStep)

/-- The `FailedStep` built by `PreparedProcedureStep.from_origin`'s exception
handler (lines 519-531). -/
def mkFailedStep (step : AnyProcedure) (ex : Exn) : FailedStep :=
  { origin := step
    exception := some ex
    combined_result :=
      { severity := Severity.internal_error
        reason := some ("Failed to instantiate step: " ++ ex.str ++
          ". Step is: " ++ pyOptStr step.name ++ " (" ++
          pyRepr ((step.description).getD "") ++ ")") } }

mutual

/-- The `try` body of `PreparedProcedureStep.from_origin` (lines 501-518):
dispatch on the edit node's variant to the matching prepare routine;
a `PlanStep` (and any other unhandled type) raises `NotImplementedError`.
The group branch is `PreparedProcedureGroup.from_origin` (lines 545-577),
inlined here so the recursion is structural; the named wrapper below is
proved equal to it. -/
def prepare_dispatch (env : Env) (step : AnyProcedure) :
    Except Exn AnyPreparedProcedure :=
  match step with
  | AnyProcedure.group b steps =>
      let children := prepareChildren env steps
      Except.ok (AnyPreparedProcedure.group
        (mkPreparedBase none (AnyProcedure.group b steps)) children.1 children.2)
  | AnyProcedure.descriptionStep base =>
      Except.ok (PreparedDescriptionStep.from_origin step base)
  | AnyProcedure.passiveStep base filepath =>
      PreparedPassiveStep.from_origin env step base filepath
  | AnyProcedure.setValueStep base actions success_criteria _ _ =>
      PreparedSetValueStep.from_origin env step base actions success_criteria
  | AnyProcedure.planStep _ _ _ _ _ =>
      Except.error (Exn.notImplementedError "Step type unsupported: PlanStep")

/-- The child loop of `PreparedProcedureGroup.from_origin` (lines 567-575):
prepare every child in order (the inlined body of
`PreparedProcedureStep.from_origin` per child), routing `FailedStep`s into
`prepare_failures` and all others into `steps`; one child's failure never
aborts preparation of its siblings. -/
def prepareChildren (env : Env) :
    List AnyProcedure → List AnyPreparedProcedure × List FailedStep
  | [] => ([], [])
  | s :: rest =>
      let p : PreparedOrFailed :=
        match prepare_dispatch env s with
        | Except.ok prep => PreparedOrFailed.prepared prep
        | Except.error ex => PreparedOrFailed.failed (mkFailedStep s ex)
      let rest1 := prepareChildren env rest
      match p with
      | PreparedOrFailed.prepared prep => (prep :: rest1.1, rest1.2)
      | PreparedOrFailed.failed f => (rest1.1, f :: rest1.2)

end

/-- `PreparedProcedureStep.from_origin` (lines 484-531): dispatch to the
variant-specific preparation; ANY exception raised during preparation is
caught and converted into a `FailedStep` carrying the exception and a
descriptive reason with `internal_error` severity — an exception never
propagates out of `from_origin`. -/
def PreparedProcedureStep.from_origin (env : Env) (step : AnyProcedure) :
    PreparedOrFailed :=
  match prepare_dispatch env step with
  | Except.ok p => PreparedOrFailed.prepared p
  | Except.error ex => PreparedOrFailed.failed (mkFailedStep step ex)

/-- `PreparedProcedureGroup.from_origin` (lines 545-577), as the named
wrapper over the inlined group branch of `prepare_dispatch`. The group's own
base is built with no name (the source constructor omits it). -/
def PreparedProcedureGroup.from_origin (env : Env) (b : StepFields)
    (steps : List AnyProcedure) : AnyPreparedProcedure :=
  let children := prepareChildren env steps
  AnyPreparedProcedure.group
    (mkPreparedBase none (AnyProcedure.group b steps)) children.1 children.2

/-! ## Plans -/

/-- `make_plan_item` (lines 885-892): the submittable request dictionary for
a plan (modelled by the plan name it names; args/kwargs are opaque). -/
def make_plan_item (plan_opts : PlanOptions) : String := plan_opts.plan

/-- `PreparedPlan` (lines 895-924): a plan resolved into a submittable item,
with the correlation uuid and Result of its submission. -/
structure PreparedPlan where
  name : String
  origin : PlanOptions
  item : String := ""
  uuid : Option String := none
  result : Result := incomplete_result

/-- `PreparedPlan.run` (lines 903-913), exactly as written: for a non-local
destination the stored result is set to an `error` Result — but the method
then falls through regardless, submits the item to the local RunEngine,
records the uuid, and overwrites the stored result with a success Result,
which it returns. -/
def PreparedPlan.run (env : Env) (destination : PlanDestination) (p : PreparedPlan) :
    Result × PreparedPlan × List Event :=
  let p1 :=
    if destination ≠ PlanDestination.local_ then
      { p with result :=
          { severity := Severity.error
            reason := some "Only local RunEngine supported at this time" } }
    else p
  let uuid := env.run_in_local_RE p1.item
  let p2 := { p1 with uuid := some uuid, result := ({} : Result) }
  (p2.result, p2, [Event.runLocalRE p1.item])

/-- `PreparedPlan.from_origin` (lines 915-924). -/
def PreparedPlan.from_origin (origin : PlanOptions) : PreparedPlan :=
  { name := origin.name
    item := make_plan_item origin
    origin := origin }

/-! ## Concrete sample data for evaluating the claims -/

/-- A concrete environment: happi lookups fail, the signal cache resolves
every PV, passive files are missing (`OSError`), comparisons prepare to a
default success comparison, passive runs succeed, and the local RunEngine
returns a fixed uuid. -/
def sampleEnv : Env :=
  { happi_lookup := fun _ _ => Except.error (Exn.valueError "no happi")
    signal_cache := fun pv => Except.ok { pvname := pv }
    load_passive := fun _ => Except.error (Exn.oserror "no file")
    from_signal := fun _ _ => Except.ok {}
    run_passive := fun _ => Except.ok {}
    run_in_local_RE := fun _ => "uuid-0" }

/-- A description edit step with default fields. -/
def sampleDescription : AnyProcedure := AnyProcedure.descriptionStep {}

/-- A description edit step that requires step success but no verification. -/
def sampleDescriptionNoVerify : AnyProcedure :=
  AnyProcedure.descriptionStep { verify_required := false }

/-- A plan edit step — unsupported by `PreparedProcedureStep.from_origin`'s
dispatch, so preparing it raises `NotImplementedError`. -/
def samplePlanEdit : AnyProcedure :=
  AnyProcedure.planStep { name := some "plan step" } [] PlanDestination.local_ true true

/-- A group edit step whose children are one unpreparable `PlanStep` and two
preparable `DescriptionStep`s; the group itself requires step success but no
verification. -/
def sampleGroupEdit : AnyProcedure :=
  AnyProcedure.group { verify_required := false }
    [samplePlanEdit, sampleDescriptionNoVerify, sampleDescriptionNoVerify]

/-- A signal handle whose write fails with a transport error. -/
def sampleBadSignal : Signal :=
  { pvname := "PV:BAD", set_outcome := Except.error (Exn.runtimeError "write failed") }

/-- A signal handle whose write succeeds. -/
def sampleGoodSignal : Signal := { pvname := "PV:GOOD" }

/-- A prepared action whose signal write fails. -/
def sampleFailingAction : PreparedValueToSignal :=
  { name := some "bad action"
    signal := sampleBadSignal
    value := some 5
    origin := { name := some "bad action", pv := some "PV:BAD", value := some 5 } }

/-- A prepared action whose signal write succeeds. -/
def sampleGoodAction : PreparedValueToSignal :=
  { name := some "good action"
    signal := sampleGoodSignal
    value := some 5
    origin := { name := some "good action", pv := some "PV:GOOD", value := some 5 } }

/-- A prepared success criterion. -/
def sampleCriterion : PreparedSignalComparison :=
  { name := some "check", compare_outcome := {} }

/-- A prepared SetValueStep (halt_on_fail, require_action_success) holding a
good action, then a failing action, then another good action, plus one
success criterion. -/
def sampleSetValuePrepared : AnyPreparedProcedure :=
  AnyPreparedProcedure.setValueStep
    (mkPreparedBase (some "set step")
      (AnyProcedure.setValueStep { name := some "set step" } [] [] true true))
    { prepared_actions := [sampleGoodAction, sampleFailingAction, sampleGoodAction]
      prepared_criteria := [sampleCriterion] }

/-- A prepared plan for the plan named `scan1`. -/
def samplePlan : PreparedPlan :=
  PreparedPlan.from_origin { name := some "p1" |>.getD "p1", plan := "scan1" }

/-- A description edit step requiring neither verification nor success. -/
def sampleDescriptionNoFlags : AnyProcedure :=
  AnyProcedure.descriptionStep { verify_required := false, step_success_required := false }

/-- A group edit step requiring neither verification nor step success, whose
children are one unpreparable `PlanStep` and two preparable
`DescriptionStep`s. -/
def sampleGroupEditNoFlags : AnyProcedure :=
  AnyProcedure.group { verify_required := false, step_success_required := false }
    [samplePlanEdit, sampleDescriptionNoFlags, sampleDescriptionNoFlags]

/-! ## Theorems -/

/-- `Severity.max` returns one of its arguments. -/
theorem Severity.max_choice : ∀ a b : Severity, a.max b = a ∨ a.max b = b := by
  decide

/-- `Severity.max` dominates its left argument. -/
theorem Severity.le_max_left : ∀ a b : Severity, a ≤ a.max b := by decide

/-- `Severity.max` dominates its right argument. -/
theorem Severity.le_max_right : ∀ a b : Severity, b ≤ a.max b := by decide

/-- `≤` on severities is transitive. -/
theorem Severity.le_trans_ : ∀ a b c : Severity, a ≤ b → b ≤ c → a ≤ c := by
  decide

/-- `success` is the bottom severity. -/
theorem Severity.le_success_eq : ∀ a : Severity, a ≤ Severity.success → a = Severity.success := by
  decide

/-- A fold of `Severity.max` is either the start value or an element of the
list. -/
theorem foldl_severity_max_mem (l : List Severity) (acc : Severity) :
    l.foldl Severity.max acc = acc ∨ l.foldl Severity.max acc ∈ l := by
  induction l generalizing acc with
  | nil => left; rfl
  | cons x xs ih =>
    have hx := Severity.max_choice acc x
    rcases ih (Severity.max acc x) with h | h
    · rw [List.foldl_cons, h]
      rcases hx with h1 | h1
      · left; exact h1
      · right; rw [h1]; exact List.mem_cons_self x xs
    · right
      rw [List.foldl_cons]
      exact List.mem_cons_of_mem x h

/-- A fold of `Severity.max` dominates its start value. -/
theorem foldl_severity_max_ge_acc (l : List Severity) (acc : Severity) :
    acc ≤ l.foldl Severity.max acc := by
  induction l generalizing acc with
  | nil => cases acc <;> decide
  | cons x xs ih =>
    rw [List.foldl_cons]
    exact Severity.le_trans_ _ _ _ (Severity.le_max_left acc x) (ih (Severity.max acc x))

/-- A fold of `Severity.max` dominates every element of the list. -/
theorem foldl_severity_max_ge_mem (l : List Severity) (acc : Severity) :
    ∀ x ∈ l, x ≤ l.foldl Severity.max acc := by
  induction l generalizing acc with
  | nil => intro x hx; cases hx
  | cons y ys ih =>
    intro x hx
    rw [List.foldl_cons]
    rcases List.mem_cons.mp hx with h | h
    · subst h
      exact Severity.le_trans_ _ _ _ (Severity.le_max_right acc x)
        (foldl_severity_max_ge_acc ys (Severity.max acc x))
    · exact ih (Severity.max acc y) x h

/-- C1: combining Results under `all_` mode yields the maximum of the input
severities (the aggregate is the severity of some input and dominates every
input), and combining an empty list yields `success`. -/
theorem summarize_all_mode_is_max (results : List Result) :
    (results = [] →
      _summarize_result_severity GroupResultMode.all_ results = Severity.success) ∧
    (results ≠ [] →
      (∃ r ∈ results,
        _summarize_result_severity GroupResultMode.all_ results = r.severity) ∧
      ∀ r ∈ results,
        r.severity ≤ _summarize_result_severity GroupResultMode.all_ results) := by
  constructor
  · intro h; subst h; rfl
  · intro hne
    have hub : ∀ r ∈ results,
        r.severity ≤ _summarize_result_severity GroupResultMode.all_ results := by
      intro r hr
      exact foldl_severity_max_ge_mem (results.map Result.severity) Severity.success
        r.severity (List.mem_map_of_mem Result.severity hr)
    refine ⟨?_, hub⟩
    rcases foldl_severity_max_mem (results.map Result.severity) Severity.success with h | h
    · match results, hne with
      | r :: rest, _ =>
        refine ⟨r, List.mem_cons_self r rest, ?_⟩
        have hle := hub r (List.mem_cons_self r rest)
        rw [_summarize_result_severity] at *
        rw [h] at hle ⊢
        exact (Severity.le_success_eq r.severity hle).symm
    · rcases List.mem_map.mp h with ⟨r, hr, hsev⟩
      exact ⟨r, hr, hsev.symm⟩

/-- C1 witness: a concrete combination `[error, warning]` yields `error`
(its maximum), and the empty combination yields `success`. -/
theorem summarize_all_mode_is_max_witness :
    (_summarize_result_severity GroupResultMode.all_ [] = Severity.success) ∧
    (∃ r ∈ [({ severity := Severity.error } : Result),
            { severity := Severity.warning }],
      _summarize_result_severity GroupResultMode.all_
        [{ severity := Severity.error }, { severity := Severity.warning }] = r.severity) ∧
    ∀ r ∈ [({ severity := Severity.error } : Result),
           { severity := Severity.warning }],
      r.severity ≤ _summarize_result_severity GroupResultMode.all_
        [{ severity := Severity.error }, { severity := Severity.warning }] :=
  ⟨(summarize_all_mode_is_max []).1 rfl,
   (summarize_all_mode_is_max
     [{ severity := Severity.error }, { severity := Severity.warning }]).2
     (by decide)⟩

/-- C6: when the origin requires neither verification nor step success, the
`result` property returns a success Result (the auto-success branch),
whatever the stored `step_result` and `verify_result` are — in particular
even when `step_result` has severity `error`. -/
theorem result_success_when_nothing_required (b : PreparedStepBase)
    (h1 : b.origin.verify_required = false)
    (h2 : b.origin.step_success_required = false) :
    (PreparedStepBase.result b).1 = ({} : Result) ∧
    ((PreparedStepBase.result b).1).severity = Severity.success := by
  unfold PreparedStepBase.result
  simp [h1, h2]

/-- C6 witness: a concrete step with both flags off and a stored `error`
step result still reports success. -/
theorem result_success_when_nothing_required_witness :
    (PreparedStepBase.result
      { origin := AnyProcedure.descriptionStep
          { verify_required := false, step_success_required := false }
        step_result := { severity := Severity.error, reason := some "boom" } }).1 =
      ({} : Result) ∧
    ((PreparedStepBase.result
      { origin := AnyProcedure.descriptionStep
          { verify_required := false, step_success_required := false }
        step_result := { severity := Severity.error, reason := some "boom" } }).1).severity =
      Severity.success :=
  result_success_when_nothing_required _ rfl rfl

/-- C2: whenever the variant dispatch of `PreparedProcedureStep.from_origin`
raises, `from_origin` returns a `FailedStep` carrying exactly the causing
exception and a descriptive reason, with `combined_result` severity
`internal_error`; and for every edit step `from_origin` either returns a
prepared node or such a `FailedStep` — it is a total function (it never
propagates an exception to its caller). -/
theorem from_origin_catches_all_preparation_exceptions :
    (∀ (env : Env) (step : AnyProcedure) (ex : Exn),
      prepare_dispatch env step = Except.error ex →
      PreparedProcedureStep.from_origin env step =
        PreparedOrFailed.failed (mkFailedStep step ex) ∧
      (mkFailedStep step ex).exception = some ex ∧
      ((mkFailedStep step ex).combined_result).severity = Severity.internal_error ∧
      ((mkFailedStep step ex).combined_result).reason =
        some ("Failed to instantiate step: " ++ ex.str ++ ". Step is: " ++
          pyOptStr step.name ++ " (" ++ pyRepr ((step.description).getD "") ++ ")")) ∧
    (∀ (env : Env) (step : AnyProcedure),
      (∃ p, PreparedProcedureStep.from_origin env step = PreparedOrFailed.prepared p) ∨
      (∃ ex, prepare_dispatch env step = Except.error ex ∧
        PreparedProcedureStep.from_origin env step =
          PreparedOrFailed.failed (mkFailedStep step ex))) := by
  constructor
  · intro env step ex h
    refine ⟨?_, rfl, rfl, rfl⟩
    unfold PreparedProcedureStep.from_origin
    rw [h]
  · intro env step
    unfold PreparedProcedureStep.from_origin
    cases h : prepare_dispatch env step with
    | ok p => exact Or.inl ⟨p, rfl⟩
    | error ex => exact Or.inr ⟨ex, rfl, rfl⟩

/-- C2 witness: preparing a `PlanStep` (unsupported by the dispatch) raises
`NotImplementedError`, and `from_origin` converts it into the corresponding
`FailedStep`. -/
theorem from_origin_catches_all_preparation_exceptions_witness :
    PreparedProcedureStep.from_origin sampleEnv samplePlanEdit =
      PreparedOrFailed.failed (mkFailedStep samplePlanEdit
        (Exn.notImplementedError "Step type unsupported: PlanStep")) ∧
    (mkFailedStep samplePlanEdit
      (Exn.notImplementedError "Step type unsupported: PlanStep")).exception =
      some (Exn.notImplementedError "Step type unsupported: PlanStep") ∧
    ((mkFailedStep samplePlanEdit
      (Exn.notImplementedError "Step type unsupported: PlanStep")).combined_result).severity =
      Severity.internal_error ∧
    ((mkFailedStep samplePlanEdit
      (Exn.notImplementedError "Step type unsupported: PlanStep")).combined_result).reason =
      some ("Failed to instantiate step: " ++
        (Exn.notImplementedError "Step type unsupported: PlanStep").str ++
        ". Step is: " ++ pyOptStr samplePlanEdit.name ++ " (" ++
        pyRepr ((samplePlanEdit.description).getD "") ++ ")") :=
  (from_origin_catches_all_preparation_exceptions).1 sampleEnv samplePlanEdit
    (Exn.notImplementedError "Step type unsupported: PlanStep") rfl

/-- C10: a `FailedStep`'s `result` property always returns the stored
`combined_result` unchanged — it ignores `verify_result`, `step_result` and
the origin's flags entirely — and every `FailedStep` produced by
`PreparedProcedureStep.from_origin` has `result` severity `internal_error`
(fixed at creation; nothing in the runtime model ever mutates a
`FailedStep`). -/
theorem failed_step_result_is_combined_result :
    (∀ f : FailedStep, FailedStep.result f = f.combined_result) ∧
    (∀ (f g : FailedStep), f.combined_result = g.combined_result →
      FailedStep.result f = FailedStep.result g) ∧
    (∀ (env : Env) (step : AnyProcedure) (f : FailedStep),
      PreparedProcedureStep.from_origin env step = PreparedOrFailed.failed f →
      (FailedStep.result f).severity = Severity.internal_error) := by
  refine ⟨fun f => rfl, fun f g h => h, ?_⟩
  intro env step f h
  unfold PreparedProcedureStep.from_origin at h
  cases hd : prepare_dispatch env step with
  | ok p => rw [hd] at h; cases h
  | error ex =>
      rw [hd] at h
      cases h
      rfl

/-- C10 witness: the `FailedStep` produced for a concrete unsupported step
reports its pre-set `combined_result`, with severity `internal_error`. -/
theorem failed_step_result_is_combined_result_witness :
    FailedStep.result (mkFailedStep samplePlanEdit
        (Exn.notImplementedError "Step type unsupported: PlanStep")) =
      (mkFailedStep samplePlanEdit
        (Exn.notImplementedError "Step type unsupported: PlanStep")).combined_result ∧
    (FailedStep.result (mkFailedStep samplePlanEdit
        (Exn.notImplementedError "Step type unsupported: PlanStep"))).severity =
      Severity.internal_error :=
  ⟨(failed_step_result_is_combined_result).1 _,
   (failed_step_result_is_combined_result).2.2 sampleEnv samplePlanEdit _ rfl⟩

/-- Frame of the base `result` property: it rewrites only the
`combined_result` cache (to the value it returns) and leaves `name`,
`origin`, `verify_result` and `step_result` untouched. -/
theorem PreparedStepBase.result_shape (b : PreparedStepBase) :
    ∃ r, PreparedStepBase.result b = (r, { b with combined_result := r }) := by
  unfold PreparedStepBase.result
  dsimp only
  repeat' split
  all_goals exact ⟨_, rfl⟩

theorem PreparedStepBase.result_frame (b : PreparedStepBase) :
    ((PreparedStepBase.result b).2).name = b.name ∧
    ((PreparedStepBase.result b).2).origin = b.origin ∧
    ((PreparedStepBase.result b).2).verify_result = b.verify_result ∧
    ((PreparedStepBase.result b).2).step_result = b.step_result ∧
    ((PreparedStepBase.result b).2).combined_result = (PreparedStepBase.result b).1 := by
  obtain ⟨r, h⟩ := PreparedStepBase.result_shape b
  rw [h]
  exact ⟨rfl, rfl, rfl, rfl, rfl⟩

/-- C3: the generic `run()` wrapper never raises — for every `_run` outcome
it returns a value. If `_run` returned a Result, that Result is stored into
`step_result`; if `_run` raised, a synthesized Result with severity
`internal_error` and the exception's message as reason is stored instead.
In both cases `run()` returns exactly the combined `result` property of the
updated step (which folds in `verify_result` per the origin's flags). -/
theorem run_never_raises_and_stores_step_result
    (b : PreparedStepBase) (outcome : Except Exn Result) :
    (∀ r, outcome = Except.ok r →
      ((PreparedStepBase.runWith b outcome).2).step_result = r ∧
      PreparedStepBase.runWith b outcome =
        PreparedStepBase.result { b with step_result := r }) ∧
    (∀ ex, outcome = Except.error ex →
      ((PreparedStepBase.runWith b outcome).2).step_result =
        { severity := Severity.internal_error, reason := some ex.str } ∧
      PreparedStepBase.runWith b outcome =
        PreparedStepBase.result { b with step_result :=
          { severity := Severity.internal_error, reason := some ex.str } }) := by
  constructor
  · intro r h
    subst h
    exact ⟨(PreparedStepBase.result_frame { b with step_result := r }).2.2.2.1, rfl⟩
  · intro ex h
    subst h
    exact ⟨(PreparedStepBase.result_frame { b with step_result :=
      { severity := Severity.internal_error, reason := some ex.str } }).2.2.2.1, rfl⟩

/-- C3 witness: a concrete step whose `_run` raises a `RuntimeError` ends up
with an `internal_error` step result carrying the exception message, and
`run()` returns the recomputed combined result. -/
theorem run_never_raises_and_stores_step_result_witness :
    ((PreparedStepBase.runWith { origin := sampleDescription }
        (Except.error (Exn.runtimeError "boom"))).2).step_result =
      { severity := Severity.internal_error, reason := some "boom" } ∧
    PreparedStepBase.runWith { origin := sampleDescription }
        (Except.error (Exn.runtimeError "boom")) =
      PreparedStepBase.result { origin := sampleDescription, step_result :=
        { severity := Severity.internal_error, reason := some "boom" } } :=
  (run_never_raises_and_stores_step_result { origin := sampleDescription }
    (Except.error (Exn.runtimeError "boom"))).2 (Exn.runtimeError "boom") rfl

/-- Running a prepared action emits exactly one `set` event. -/
theorem PreparedValueToSignal.run_trace (p : PreparedValueToSignal) :
    ((PreparedValueToSignal.run p).2).2 = [Event.set p.name] := by
  unfold PreparedValueToSignal.run
  cases p.signal.set_outcome <;> rfl

/-- Running a prepared action preserves its name. -/
theorem PreparedValueToSignal.run_name (p : PreparedValueToSignal) :
    (((PreparedValueToSignal.run p).2).1).name = p.name := by
  unfold PreparedValueToSignal.run
  cases p.signal.set_outcome <;> rfl

/-- With `halt_on_fail`, the action loop stops at the first action whose run
reports a severity above success: actions before it run and fail to halt,
the failing action runs and its name is reported, the actions after it are
left untouched, and only `set` events (through the failing action) are
emitted. -/
theorem runActionsLoop_halt (l : List PreparedValueToSignal)
    (h : ∃ a ∈ l, Severity.success < ((PreparedValueToSignal.run a).1).severity) :
    ∃ pre a post,
      l = pre ++ a :: post ∧
      (∀ x ∈ pre, ¬ Severity.success < ((PreparedValueToSignal.run x).1).severity) ∧
      Severity.success < ((PreparedValueToSignal.run a).1).severity ∧
      runActionsLoop true l =
        (pre.map (fun x => ((PreparedValueToSignal.run x).2).1) ++
          ((PreparedValueToSignal.run a).2).1 :: post,
         some a.name,
         pre.map (fun x => Event.set x.name) ++ [Event.set a.name]) := by
  induction l with
  | nil => rcases h with ⟨a, ha, _⟩; cases ha
  | cons x xs ih =>
    by_cases hx : Severity.success < ((PreparedValueToSignal.run x).1).severity
    · refine ⟨[], x, xs, rfl, by simp, hx, ?_⟩
      unfold runActionsLoop
      rw [if_pos (by simp [hx])]
      simp [PreparedValueToSignal.run_name, PreparedValueToSignal.run_trace]
    · have hxs : ∃ a ∈ xs,
          Severity.success < ((PreparedValueToSignal.run a).1).severity := by
        rcases h with ⟨a, ha, hfail⟩
        rcases List.mem_cons.mp ha with rfl | ha2
        · exact absurd hfail hx
        · exact ⟨a, ha2, hfail⟩
      obtain ⟨pre, a, post, hsplit, hpre, hfail, hloop⟩ := ih hxs
      refine ⟨x :: pre, a, post, by rw [hsplit]; rfl, ?_, hfail, ?_⟩
      · intro y hy
        rcases List.mem_cons.mp hy with rfl | hy2
        · exact hx
        · exact hpre y hy2
      · unfold runActionsLoop
        rw [if_neg (by simp [hx]), hloop]
        simp [PreparedValueToSignal.run_trace]

/-- C5: for a prepared SetValueStep whose origin has `halt_on_fail = True`,
if some prepared action's run reports a severity above success, then `_run`
returns immediately at the first such action with a Result of severity
exactly `error` (also stored into `step_result`): the actions after it are
left untouched, the criteria list is left untouched, and the emitted trace
holds only `set` events — no success-criteria comparison is executed. -/
theorem set_value_halt_on_fail_skips_rest
    (b : PreparedStepBase) (d : PreparedSetValueStepData)
    (f : StepFields) (acts : List ValueToTarget) (scs : List ComparisonToTarget)
    (req : Bool)
    (horigin : b.origin = AnyProcedure.setValueStep f acts scs true req)
    (h : ∃ a ∈ d.prepared_actions,
      Severity.success < ((PreparedValueToSignal.run a).1).severity) :
    ∃ pre a post,
      d.prepared_actions = pre ++ a :: post ∧
      (∀ x ∈ pre, ¬ Severity.success < ((PreparedValueToSignal.run x).1).severity) ∧
      Severity.success < ((PreparedValueToSignal.run a).1).severity ∧
      PreparedSetValueStep_run b d =
        Except.ok
          ({ severity := Severity.error
             reason := some ("action failed (" ++ pyOptStr a.name ++ "), step halted") },
           { b with step_result :=
              { severity := Severity.error
                reason := some ("action failed (" ++ pyOptStr a.name ++ "), step halted") } },
           { d with prepared_actions :=
              pre.map (fun x => ((PreparedValueToSignal.run x).2).1) ++
                ((PreparedValueToSignal.run a).2).1 :: post },
           pre.map (fun x => Event.set x.name) ++ [Event.set a.name]) ∧
      ({ d with prepared_actions :=
          pre.map (fun x => ((PreparedValueToSignal.run x).2).1) ++
            ((PreparedValueToSignal.run a).2).1 :: post
         } : PreparedSetValueStepData).prepared_criteria = d.prepared_criteria ∧
      ∀ e ∈ pre.map (fun x => Event.set x.name) ++ [Event.set a.name],
        Event.isCompare e = false := by
  obtain ⟨pre, a, post, hsplit, hpre, hfail, hloop⟩ :=
    runActionsLoop_halt d.prepared_actions h
  refine ⟨pre, a, post, hsplit, hpre, hfail, ?_, rfl, ?_⟩
  · unfold PreparedSetValueStep_run
    rw [horigin]
    dsimp only
    rw [hloop]
  · intro e he
    rcases List.mem_append.mp he with h1 | h1
    · rcases List.mem_map.mp h1 with ⟨x, _, rfl⟩
      rfl
    · rcases List.mem_singleton.mp h1 with rfl
      rfl

/-- C5 witness: in a concrete halt-on-fail SetValueStep with a good action,
a failing action and another good action plus one criterion, `_run` halts at
the failing action with an `error` Result and executes no comparison. -/
theorem set_value_halt_on_fail_skips_rest_witness :
    ∃ pre a post,
      ([sampleGoodAction, sampleFailingAction, sampleGoodAction] :
          List PreparedValueToSignal) = pre ++ a :: post ∧
      (∀ x ∈ pre, ¬ Severity.success < ((PreparedValueToSignal.run x).1).severity) ∧
      Severity.success < ((PreparedValueToSignal.run a).1).severity ∧
      PreparedSetValueStep_run
        (mkPreparedBase (some "set step")
          (AnyProcedure.setValueStep { name := some "set step" } [] [] true true))
        { prepared_actions := [sampleGoodAction, sampleFailingAction, sampleGoodAction]
          prepared_criteria := [sampleCriterion] } =
        Except.ok
          ({ severity := Severity.error
             reason := some ("action failed (" ++ pyOptStr a.name ++ "), step halted") },
           { mkPreparedBase (some "set step")
              (AnyProcedure.setValueStep { name := some "set step" } [] [] true true) with
             step_result :=
              { severity := Severity.error
                reason := some ("action failed (" ++ pyOptStr a.name ++ "), step halted") } },
           { ({ prepared_actions :=
                  [sampleGoodAction, sampleFailingAction, sampleGoodAction]
                prepared_criteria := [sampleCriterion] } : PreparedSetValueStepData) with
             prepared_actions :=
              pre.map (fun x => ((PreparedValueToSignal.run x).2).1) ++
                ((PreparedValueToSignal.run a).2).1 :: post },
           pre.map (fun x => Event.set x.name) ++ [Event.set a.name]) ∧
      ({ ({ prepared_actions :=
              [sampleGoodAction, sampleFailingAction, sampleGoodAction]
            prepared_criteria := [sampleCriterion] } : PreparedSetValueStepData) with
         prepared_actions :=
          pre.map (fun x => ((PreparedValueToSignal.run x).2).1) ++
            ((PreparedValueToSignal.run a).2).1 :: post
         } : PreparedSetValueStepData).prepared_criteria =
        ({ prepared_actions :=
            [sampleGoodAction, sampleFailingAction, sampleGoodAction]
           prepared_criteria := [sampleCriterion] } :
          PreparedSetValueStepData).prepared_criteria ∧
      ∀ e ∈ pre.map (fun x => Event.set x.name) ++ [Event.set a.name],
        Event.isCompare e = false :=
  set_value_halt_on_fail_skips_rest
    (mkPreparedBase (some "set step")
      (AnyProcedure.setValueStep { name := some "set step" } [] [] true true))
    { prepared_actions := [sampleGoodAction, sampleFailingAction, sampleGoodAction]
      prepared_criteria := [sampleCriterion] }
    { name := some "set step" } [] [] true rfl
    ⟨sampleFailingAction, List.mem_cons_of_mem _ (List.mem_cons_self _ _), by decide⟩

/-- `success` is the identity of `Severity.max`. -/
theorem Severity.max_success_left : ∀ s : Severity, Severity.max Severity.success s = s := by
  decide

/-- When only step success is required, the combined `result` severity is
exactly the stored `step_result` severity. -/
theorem result_severity_when_step_only (b : PreparedStepBase)
    (hv : b.origin.verify_required = false)
    (hs : b.origin.step_success_required = true) :
    ((PreparedStepBase.result b).1).severity = (b.step_result).severity := by
  unfold PreparedStepBase.result
  dsimp only
  rw [hv, hs]
  simp [_summarize_result_severity, Severity.max_success_left]

/-- The group's child-preparation loop is an order-preserving partition of
the children by the outcome of `PreparedProcedureStep.from_origin`: prepared
nodes into `steps`, failures into `prepare_failures`; no child is dropped
and no failure aborts the loop. -/
theorem prepareChildren_eq_filterMap (env : Env) (children : List AnyProcedure) :
    prepareChildren env children =
      (children.filterMap (fun s =>
          match PreparedProcedureStep.from_origin env s with
          | PreparedOrFailed.prepared p => some p
          | PreparedOrFailed.failed _ => none),
       children.filterMap (fun s =>
          match PreparedProcedureStep.from_origin env s with
          | PreparedOrFailed.prepared _ => none
          | PreparedOrFailed.failed f => some f)) := by
  induction children with
  | nil => rfl
  | cons s rest ih =>
    unfold prepareChildren
    dsimp only
    have hinline :
        (match prepare_dispatch env s with
          | Except.ok prep => PreparedOrFailed.prepared prep
          | Except.error ex => PreparedOrFailed.failed (mkFailedStep s ex)) =
        PreparedProcedureStep.from_origin env s := rfl
    rw [hinline, ih]
    cases h : PreparedProcedureStep.from_origin env s <;>
      simp [List.filterMap_cons, h]

/-- C4 counterexample: a concrete group requiring neither verification nor
step success, with one unpreparable child (a `PlanStep`) and two children
that prepare and run successfully, has `prepare_failures` of length 1 and
`steps` of length 2 — yet its `run()` and `result` report severity
`success`, not `error`: the group outcome forced by `prepare_failures` only
reaches the reported result through the flag-gated combination. -/
theorem group_prepare_failure_error_counterexample :
    PreparedProcedureStep.from_origin sampleEnv sampleGroupEditNoFlags =
      PreparedOrFailed.prepared (AnyPreparedProcedure.group
        (mkPreparedBase none sampleGroupEditNoFlags)
        [AnyPreparedProcedure.descriptionStep (mkPreparedBase none sampleDescriptionNoFlags),
         AnyPreparedProcedure.descriptionStep (mkPreparedBase none sampleDescriptionNoFlags)]
        [mkFailedStep samplePlanEdit
          (Exn.notImplementedError "Step type unsupported: PlanStep")]) ∧
    [mkFailedStep samplePlanEdit
      (Exn.notImplementedError "Step type unsupported: PlanStep")].length = 1 ∧
    [AnyPreparedProcedure.descriptionStep (mkPreparedBase none sampleDescriptionNoFlags),
     AnyPreparedProcedure.descriptionStep
       (mkPreparedBase none sampleDescriptionNoFlags)].length = 2 ∧
    ((AnyPreparedProcedure.run sampleEnv (AnyPreparedProcedure.group
        (mkPreparedBase none sampleGroupEditNoFlags)
        [AnyPreparedProcedure.descriptionStep (mkPreparedBase none sampleDescriptionNoFlags),
         AnyPreparedProcedure.descriptionStep (mkPreparedBase none sampleDescriptionNoFlags)]
        [mkFailedStep samplePlanEdit
          (Exn.notImplementedError "Step type unsupported: PlanStep")])).1).severity =
      Severity.success ∧
    Severity.success ≠ Severity.error :=
  ⟨rfl, rfl, rfl, rfl, by decide⟩

/-- Unfolding of `run` on a group node: run the children, force the error
result on any preparation failure (else combine the child run results), and
return the group's `result` property. -/
theorem run_group_eq (env : Env) (base : PreparedStepBase)
    (steps : List AnyPreparedProcedure) (fails : List FailedStep) :
    AnyPreparedProcedure.run env (AnyPreparedProcedure.group base steps fails) =
      ((AnyPreparedProcedure.result (AnyPreparedProcedure.group
          { base with step_result :=
              if fails.isEmpty then
                { severity := _summarize_result_severity GroupResultMode.all_
                    (AnyPreparedProcedure.runList env steps).1 }
              else
                { severity := Severity.error
                  reason := some "At least one step failed to initialize" } }
          (AnyPreparedProcedure.runList env steps).2.1 fails)).1,
       (AnyPreparedProcedure.result (AnyPreparedProcedure.group
          { base with step_result :=
              if fails.isEmpty then
                { severity := _summarize_result_severity GroupResultMode.all_
                    (AnyPreparedProcedure.runList env steps).1 }
              else
                { severity := Severity.error
                  reason := some "At least one step failed to initialize" } }
          (AnyPreparedProcedure.runList env steps).2.1 fails)).2,
       (AnyPreparedProcedure.runList env steps).2.2) := rfl

/-- Unfolding of the `result` property on a group node: re-pull the
children's current results, force the error result on any preparation
failure (else combine), store into `step_result`, and defer to the base
property. -/
theorem result_group_eq (base : PreparedStepBase)
    (steps : List AnyPreparedProcedure) (fails : List FailedStep) :
    AnyPreparedProcedure.result (AnyPreparedProcedure.group base steps fails) =
      ((PreparedStepBase.result { base with step_result :=
          if fails.isEmpty then
            { severity := _summarize_result_severity GroupResultMode.all_
                (AnyPreparedProcedure.resultList steps).1 }
          else
            { severity := Severity.error
              reason := some "At least one step failed to initialize" } }).1,
       AnyPreparedProcedure.group
        (PreparedStepBase.result { base with step_result :=
          if fails.isEmpty then
            { severity := _summarize_result_severity GroupResultMode.all_
                (AnyPreparedProcedure.resultList steps).1 }
          else
            { severity := Severity.error
              reason := some "At least one step failed to initialize" } }).2
        (AnyPreparedProcedure.resultList steps).2 fails) := rfl

/-- C4 (amended): (a) group preparation partitions the children, in order,
into prepared `steps` and `prepare_failures` by the outcome of
`PreparedProcedureStep.from_origin` — one child's failure never aborts its
siblings; (b) whenever `prepare_failures` is non-empty, the group's
`step_result` is forced to the `error` Result regardless of child outcomes,
and when the group's origin does not require verification but does require
step success, both `run()` and the `result` property report severity exactly
`error`. -/
theorem group_partitions_children_and_forces_error :
    (∀ (env : Env) (children : List AnyProcedure),
      prepareChildren env children =
        (children.filterMap (fun s =>
            match PreparedProcedureStep.from_origin env s with
            | PreparedOrFailed.prepared p => some p
            | PreparedOrFailed.failed _ => none),
         children.filterMap (fun s =>
            match PreparedProcedureStep.from_origin env s with
            | PreparedOrFailed.prepared _ => none
            | PreparedOrFailed.failed f => some f))) ∧
    (∀ (env : Env) (base : PreparedStepBase) (steps : List AnyPreparedProcedure)
        (fails : List FailedStep), fails ≠ [] →
      (((AnyPreparedProcedure.run env
          (AnyPreparedProcedure.group base steps fails)).2.1).base).step_result =
        { severity := Severity.error
          reason := some "At least one step failed to initialize" } ∧
      (base.origin.verify_required = false → base.origin.step_success_required = true →
        ((AnyPreparedProcedure.run env
            (AnyPreparedProcedure.group base steps fails)).1).severity = Severity.error ∧
        ((AnyPreparedProcedure.result
            (AnyPreparedProcedure.group base steps fails)).1).severity = Severity.error)) := by
  refine ⟨prepareChildren_eq_filterMap, ?_⟩
  intro env base steps fails hne
  have hne2 : fails.isEmpty = false := by
    cases fails with
    | nil => exact absurd rfl hne
    | cons f fs => rfl
  rw [run_group_eq, result_group_eq, result_group_eq]
  simp only [hne2, Bool.false_eq_true, if_false]
  refine ⟨?_, ?_⟩
  · exact (PreparedStepBase.result_frame _).2.2.2.1
  · intro hv hs
    exact ⟨result_severity_when_step_only _ hv hs,
           result_severity_when_step_only _ hv hs⟩

/-- C4 witness: the concrete group scenario — one unpreparable `PlanStep`
child and two preparable description children, verification not required but
step success required — has `prepare_failures` length 1 and `steps` length
2, is forced to the `error` step result, and both `run()` and `result`
report severity `error`. -/
theorem group_partitions_children_and_forces_error_witness :
    (((AnyPreparedProcedure.run sampleEnv
        (AnyPreparedProcedure.group (mkPreparedBase none sampleGroupEdit)
          [AnyPreparedProcedure.descriptionStep
            (mkPreparedBase none sampleDescriptionNoVerify),
           AnyPreparedProcedure.descriptionStep
            (mkPreparedBase none sampleDescriptionNoVerify)]
          [mkFailedStep samplePlanEdit
            (Exn.notImplementedError "Step type unsupported: PlanStep")])).2.1).base).step_result =
      { severity := Severity.error
        reason := some "At least one step failed to initialize" } ∧
    ((AnyPreparedProcedure.run sampleEnv
        (AnyPreparedProcedure.group (mkPreparedBase none sampleGroupEdit)
          [AnyPreparedProcedure.descriptionStep
            (mkPreparedBase none sampleDescriptionNoVerify),
           AnyPreparedProcedure.descriptionStep
            (mkPreparedBase none sampleDescriptionNoVerify)]
          [mkFailedStep samplePlanEdit
            (Exn.notImplementedError "Step type unsupported: PlanStep")])).1).severity =
      Severity.error ∧
    ((AnyPreparedProcedure.result
        (AnyPreparedProcedure.group (mkPreparedBase none sampleGroupEdit)
          [AnyPreparedProcedure.descriptionStep
            (mkPreparedBase none sampleDescriptionNoVerify),
           AnyPreparedProcedure.descriptionStep
            (mkPreparedBase none sampleDescriptionNoVerify)]
          [mkFailedStep samplePlanEdit
            (Exn.notImplementedError "Step type unsupported: PlanStep")])).1).severity =
      Severity.error ∧
    [mkFailedStep samplePlanEdit
      (Exn.notImplementedError "Step type unsupported: PlanStep")].length = 1 ∧
    [AnyPreparedProcedure.descriptionStep
      (mkPreparedBase none sampleDescriptionNoVerify),
     AnyPreparedProcedure.descriptionStep
      (mkPreparedBase none sampleDescriptionNoVerify)].length = 2 :=
  ⟨((group_partitions_children_and_forces_error).2 sampleEnv
      (mkPreparedBase none sampleGroupEdit)
      [AnyPreparedProcedure.descriptionStep
        (mkPreparedBase none sampleDescriptionNoVerify),
       AnyPreparedProcedure.descriptionStep
        (mkPreparedBase none sampleDescriptionNoVerify)]
      [mkFailedStep samplePlanEdit
        (Exn.notImplementedError "Step type unsupported: PlanStep")]
      (by simp)).1,
   (((group_partitions_children_and_forces_error).2 sampleEnv
      (mkPreparedBase none sampleGroupEdit)
      [AnyPreparedProcedure.descriptionStep
        (mkPreparedBase none sampleDescriptionNoVerify),
       AnyPreparedProcedure.descriptionStep
        (mkPreparedBase none sampleDescriptionNoVerify)]
      [mkFailedStep samplePlanEdit
        (Exn.notImplementedError "Step type unsupported: PlanStep")]
      (by simp)).2 rfl rfl).1,
   (((group_partitions_children_and_forces_error).2 sampleEnv
      (mkPreparedBase none sampleGroupEdit)
      [AnyPreparedProcedure.descriptionStep
        (mkPreparedBase none sampleDescriptionNoVerify),
       AnyPreparedProcedure.descriptionStep
        (mkPreparedBase none sampleDescriptionNoVerify)]
      [mkFailedStep samplePlanEdit
        (Exn.notImplementedError "Step type unsupported: PlanStep")]
      (by simp)).2 rfl rfl).2,
   rfl, rfl⟩

/-- The severity of the combined `result` property is exactly the `all_`
summary of the flag-selected sub-results (verify first, then step). -/
theorem result_severity_combination (b : PreparedStepBase) :
    ((PreparedStepBase.result b).1).severity =
      _summarize_result_severity GroupResultMode.all_
        ((if b.origin.verify_required then [b.verify_result] else []) ++
         (if b.origin.step_success_required then [b.step_result] else [])) := by
  unfold PreparedStepBase.result
  dsimp only
  cases hv : b.origin.verify_required <;> cases hs : b.origin.step_success_required <;>
    simp [hv, hs, _summarize_result_severity]

/-- C9 counterexample: a prepared `DescriptionStep` whose origin keeps the
default `verify_required = True` and whose `verify_result` is still the
incomplete sentinel reports a non-success severity from `run()` (the
combined result folds in the unverified `verify_result`), even though the
Result `_run` stored into `step_result` is success. -/
theorem description_run_always_success_counterexample :
    ((AnyPreparedProcedure.run sampleEnv
        (AnyPreparedProcedure.descriptionStep
          (mkPreparedBase none sampleDescription))).1).severity =
      Severity.internal_error ∧
    Severity.internal_error ≠ Severity.success ∧
    (((AnyPreparedProcedure.run sampleEnv
        (AnyPreparedProcedure.descriptionStep
          (mkPreparedBase none sampleDescription))).2.1).base).step_result =
      ({} : Result) :=
  ⟨rfl, by decide, rfl⟩

/-- C9 (amended): a prepared `DescriptionStep`'s `_run` always produces a
success Result, which `run()` stores into `step_result` regardless of the
flags; and `run()` itself returns severity `success` whenever the origin
does not require verification or the stored `verify_result` is already a
success — whatever `step_success_required` is. -/
theorem description_run_success_when_verify_not_required
    (env : Env) (base : PreparedStepBase)
    (h : base.origin.verify_required = false ∨
      (base.verify_result).severity = Severity.success) :
    (((AnyPreparedProcedure.run env
        (AnyPreparedProcedure.descriptionStep base)).2.1).base).step_result =
      ({} : Result) ∧
    ((AnyPreparedProcedure.run env
        (AnyPreparedProcedure.descriptionStep base)).1).severity =
      Severity.success := by
  have hrun : AnyPreparedProcedure.run env (AnyPreparedProcedure.descriptionStep base) =
      ((PreparedStepBase.result { base with step_result := ({} : Result) }).1,
       AnyPreparedProcedure.descriptionStep
        (PreparedStepBase.result { base with step_result := ({} : Result) }).2,
       []) := rfl
  rw [hrun]
  dsimp only [AnyPreparedProcedure.base]
  refine ⟨(PreparedStepBase.result_frame _).2.2.2.1, ?_⟩
  rw [result_severity_combination]
  dsimp only
  rcases h with hv | hvs
  · rw [hv]
    cases hs : base.origin.step_success_required <;>
      simp [_summarize_result_severity, Severity.max_success_left]
  · cases hv : base.origin.verify_required <;>
      cases hs : base.origin.step_success_required <;>
      simp [_summarize_result_severity, hvs, Severity.max_success_left]

/-- C9 witness: a concrete prepared description step whose origin does not
require verification runs to a stored success `step_result` and a returned
severity of `success`. -/
theorem description_run_success_when_verify_not_required_witness :
    (((AnyPreparedProcedure.run sampleEnv
        (AnyPreparedProcedure.descriptionStep
          (mkPreparedBase none sampleDescriptionNoVerify))).2.1).base).step_result =
      ({} : Result) ∧
    ((AnyPreparedProcedure.run sampleEnv
        (AnyPreparedProcedure.descriptionStep
          (mkPreparedBase none sampleDescriptionNoVerify))).1).severity =
      Severity.success :=
  description_run_success_when_verify_not_required sampleEnv
    (mkPreparedBase none sampleDescriptionNoVerify) (Or.inl rfl)

/-- The value the `result` property computes depends only on the origin and
the two sub-results, not on the cached `combined_result`. -/
theorem result_congr (b1 b2 : PreparedStepBase)
    (ho : b2.origin = b1.origin) (hv : b2.verify_result = b1.verify_result)
    (hs : b2.step_result = b1.step_result) :
    (PreparedStepBase.result b2).1 = (PreparedStepBase.result b1).1 := by
  unfold PreparedStepBase.result
  dsimp only
  rw [ho, hv, hs]
  repeat' split
  all_goals rfl

/-- The base `result` property is idempotent: re-reading it on the updated
state returns the same Result and changes nothing further. -/
theorem result_idem_base (b : PreparedStepBase) :
    PreparedStepBase.result ((PreparedStepBase.result b).2) =
      ((PreparedStepBase.result b).1, (PreparedStepBase.result b).2) := by
  obtain ⟨r, h⟩ := PreparedStepBase.result_shape b
  rw [h]
  dsimp only
  obtain ⟨r2, h2⟩ := PreparedStepBase.result_shape { b with combined_result := r }
  have hr : r2 = r := by
    have hc := result_congr b { b with combined_result := r } rfl rfl rfl
    rw [h, h2] at hc
    exact hc
  rw [h2, hr]

/-- Unfolding of the `result` property on a description node. -/
theorem result_description_eq (base : PreparedStepBase) :
    AnyPreparedProcedure.result (AnyPreparedProcedure.descriptionStep base) =
      ((PreparedStepBase.result base).1,
       AnyPreparedProcedure.descriptionStep (PreparedStepBase.result base).2) := rfl

/-- Unfolding of the `result` property on a passive node. -/
theorem result_passive_eq (base : PreparedStepBase) (f : Option PreparedFile) :
    AnyPreparedProcedure.result (AnyPreparedProcedure.passiveStep base f) =
      ((PreparedStepBase.result base).1,
       AnyPreparedProcedure.passiveStep (PreparedStepBase.result base).2 f) := rfl

/-- Unfolding of the `result` property on a set-value node. -/
theorem result_setValue_eq (base : PreparedStepBase) (d : PreparedSetValueStepData) :
    AnyPreparedProcedure.result (AnyPreparedProcedure.setValueStep base d) =
      ((PreparedStepBase.result base).1,
       AnyPreparedProcedure.setValueStep (PreparedStepBase.result base).2 d) := rfl

/-- Unfolding of `resultList` on a cons cell. -/
theorem resultList_cons_eq (s : AnyPreparedProcedure) (l : List AnyPreparedProcedure) :
    AnyPreparedProcedure.resultList (s :: l) =
      ((AnyPreparedProcedure.result s).1 :: (AnyPreparedProcedure.resultList l).1,
       (AnyPreparedProcedure.result s).2 :: (AnyPreparedProcedure.resultList l).2) := rfl

mutual

/-- The tree-level `result` property is idempotent: re-reading it on the
state it produced returns the same Result and changes nothing further, at
every nesting depth. -/
theorem tree_result_idem : ∀ p : AnyPreparedProcedure,
    AnyPreparedProcedure.result ((AnyPreparedProcedure.result p).2) =
      ((AnyPreparedProcedure.result p).1, (AnyPreparedProcedure.result p).2)
  | AnyPreparedProcedure.group base steps fails => by
      have hl := treeList_result_idem steps
      rw [result_group_eq base steps fails]
      dsimp only
      rw [result_group_eq, hl]
      dsimp only
      have hB2 :
          ({ (PreparedStepBase.result { base with step_result :=
                if fails.isEmpty then
                  { severity := _summarize_result_severity GroupResultMode.all_
                      (AnyPreparedProcedure.resultList steps).1 }
                else
                  { severity := Severity.error
                    reason := some "At least one step failed to initialize" } }).2 with
              step_result :=
                if fails.isEmpty then
                  { severity := _summarize_result_severity GroupResultMode.all_
                      (AnyPreparedProcedure.resultList steps).1 }
                else
                  { severity := Severity.error
                    reason := some "At least one step failed to initialize" } } :
            PreparedStepBase) =
          (PreparedStepBase.result { base with step_result :=
              if fails.isEmpty then
                { severity := _summarize_result_severity GroupResultMode.all_
                    (AnyPreparedProcedure.resultList steps).1 }
              else
                { severity := Severity.error
                  reason := some "At least one step failed to initialize" } }).2 := by
        obtain ⟨r, hsh⟩ := PreparedStepBase.result_shape { base with step_result :=
          if fails.isEmpty then
            { severity := _summarize_result_severity GroupResultMode.all_
                (AnyPreparedProcedure.resultList steps).1 }
          else
            { severity := Severity.error
              reason := some "At least one step failed to initialize" } }
        rw [hsh]
      rw [hB2, result_idem_base]
  | AnyPreparedProcedure.descriptionStep base => by
      rw [result_description_eq]
      dsimp only
      rw [result_description_eq, result_idem_base]
  | AnyPreparedProcedure.passiveStep base f => by
      rw [result_passive_eq]
      dsimp only
      rw [result_passive_eq, result_idem_base]
  | AnyPreparedProcedure.setValueStep base d => by
      rw [result_setValue_eq]
      dsimp only
      rw [result_setValue_eq, result_idem_base]

/-- Idempotence of `resultList` over a list of prepared children. -/
theorem treeList_result_idem : ∀ l : List AnyPreparedProcedure,
    AnyPreparedProcedure.resultList ((AnyPreparedProcedure.resultList l).2) =
      ((AnyPreparedProcedure.resultList l).1, (AnyPreparedProcedure.resultList l).2)
  | [] => rfl
  | s :: rest => by
      have hhead := tree_result_idem s
      have htail := treeList_result_idem rest
      rw [resultList_cons_eq]
      dsimp only
      rw [resultList_cons_eq, hhead, htail]

end

/-- C7 counterexample: reading the `result` property is not side-effect-free
on the stored fields — on a concrete step it rewrites the stored
`combined_result` (from the incomplete sentinel to the freshly computed
Result), and on a concrete group it rewrites the group's stored
`step_result`. -/
theorem result_property_read_only_counterexample :
    ((PreparedStepBase.result (mkPreparedBase none sampleDescriptionNoFlags)).2).combined_result ≠
      (mkPreparedBase none sampleDescriptionNoFlags).combined_result ∧
    (((AnyPreparedProcedure.result (AnyPreparedProcedure.group
        (mkPreparedBase none sampleGroupEditNoFlags) []
        [mkFailedStep samplePlanEdit
          (Exn.notImplementedError "Step type unsupported: PlanStep")])).2).base).step_result ≠
      ((AnyPreparedProcedure.group (mkPreparedBase none sampleGroupEditNoFlags) []
        [mkFailedStep samplePlanEdit
          (Exn.notImplementedError "Step type unsupported: PlanStep")]).base).step_result :=
  ⟨by decide, by decide⟩

/-- C7 (amended): reading the `result` property re-derives the Result but
mutates only the cache fields: for a prepared step it rewrites only
`combined_result` (to the value it returns), leaving `name`, `origin`,
`verify_result` and `step_result` unchanged; at tree level it leaves every
node's `name`, `origin` and `verify_result` unchanged (groups additionally
refresh their `step_result` cache and their children's caches); and it is
idempotent at every nesting depth — a second read returns the same Result
and changes nothing further, so repeated inspection is stable. -/
theorem result_property_mutates_only_caches :
    (∀ b : PreparedStepBase,
      ((PreparedStepBase.result b).2).name = b.name ∧
      ((PreparedStepBase.result b).2).origin = b.origin ∧
      ((PreparedStepBase.result b).2).verify_result = b.verify_result ∧
      ((PreparedStepBase.result b).2).step_result = b.step_result ∧
      ((PreparedStepBase.result b).2).combined_result = (PreparedStepBase.result b).1 ∧
      PreparedStepBase.result ((PreparedStepBase.result b).2) =
        ((PreparedStepBase.result b).1, (PreparedStepBase.result b).2)) ∧
    (∀ p : AnyPreparedProcedure,
      (((AnyPreparedProcedure.result p).2).base).name = (p.base).name ∧
      (((AnyPreparedProcedure.result p).2).base).origin = (p.base).origin ∧
      (((AnyPreparedProcedure.result p).2).base).verify_result = (p.base).verify_result ∧
      AnyPreparedProcedure.result ((AnyPreparedProcedure.result p).2) =
        ((AnyPreparedProcedure.result p).1, (AnyPreparedProcedure.result p).2)) := by
  constructor
  · intro b
    obtain ⟨h1, h2, h3, h4, h5⟩ := PreparedStepBase.result_frame b
    exact ⟨h1, h2, h3, h4, h5, result_idem_base b⟩
  · intro p
    refine ⟨?_, ?_, ?_, tree_result_idem p⟩ <;>
      cases p with
      | group base steps fails =>
          rw [result_group_eq]
          dsimp only [AnyPreparedProcedure.base]
          first
          | exact (PreparedStepBase.result_frame _).1
          | exact (PreparedStepBase.result_frame _).2.1
          | exact (PreparedStepBase.result_frame _).2.2.1
      | descriptionStep base =>
          rw [result_description_eq]
          dsimp only [AnyPreparedProcedure.base]
          first
          | exact (PreparedStepBase.result_frame _).1
          | exact (PreparedStepBase.result_frame _).2.1
          | exact (PreparedStepBase.result_frame _).2.2.1
      | passiveStep base f =>
          rw [result_passive_eq]
          dsimp only [AnyPreparedProcedure.base]
          first
          | exact (PreparedStepBase.result_frame _).1
          | exact (PreparedStepBase.result_frame _).2.1
          | exact (PreparedStepBase.result_frame _).2.2.1
      | setValueStep base d =>
          rw [result_setValue_eq]
          dsimp only [AnyPreparedProcedure.base]
          first
          | exact (PreparedStepBase.result_frame _).1
          | exact (PreparedStepBase.result_frame _).2.1
          | exact (PreparedStepBase.result_frame _).2.2.1

/-- C8: `PreparedPlan.run` as written never lets the non-local-destination
`error` Result survive: for EVERY destination (local or not) it submits the
item to the local RunEngine, records the uuid, overwrites the stored result
with a success Result and returns it — concretely, running a plan with the
`qserver` destination returns severity `success` and still executes the plan
locally (the error assignment for unsupported destinations is dead because
the method falls through instead of returning). -/
theorem prepared_plan_run_ignores_destination :
    (∀ (env : Env) (destination : PlanDestination) (p : PreparedPlan),
      (PreparedPlan.run env destination p).1 = ({} : Result) ∧
      ((PreparedPlan.run env destination p).2.1).result = ({} : Result) ∧
      ((PreparedPlan.run env destination p).2.1).uuid =
        some (env.run_in_local_RE p.item) ∧
      (PreparedPlan.run env destination p).2.2 = [Event.runLocalRE p.item]) ∧
    ((PreparedPlan.run sampleEnv PlanDestination.qserver samplePlan).1).severity =
      Severity.success ∧
    (PreparedPlan.run sampleEnv PlanDestination.qserver samplePlan).2.2 =
      [Event.runLocalRE "scan1"] := by
  refine ⟨?_, rfl, rfl⟩
  intro env destination p
  cases destination <;> exact ⟨rfl, rfl, rfl, rfl⟩
